import Mathlib

/-!
Shallow embedding of the PVC provisioning core of the postgres-operator
repository (package `pvc` in `src/pgo-backrest/pgo-backrest.go`, second
compilation unit of that file).

The external collaborators (the Go template engine behind
`config.PVCTemplate`, `config.PVCStorageClassTemplate` and
`config.PVCMatchLabelsTemplate`, `json.Unmarshal`, and the Kubernetes
client used for the PersistentVolumeClaim create call) are modelled as an
`Env` of oracle functions, and the orchestration-API side effects are made
explicit: every function returns the list of API calls it issued together
with the updated (abstract) store of existing claim names.
-/

set_option autoImplicit false

namespace pvc

/-- Modelled from the spec: `crv1.PgStorageSpec` lives in the repository's
`pkg/apis` package, outside the given source file.  Fields follow §3 of the
spec: `storageType`, `name` (meaningful only for `existing`), `accessMode`,
`size`, `storageClass`, `matchLabelsRaw` (one `k=v` string or empty) and
the ordered list of numeric supplemental group IDs. -/
structure PgStorageSpec where
  Name : String := ""
  StorageType : String := ""
  AccessMode : String := ""
  Size : String := ""
  StorageClass : String := ""
  MatchLabels : String := ""
  SupplementalGroups : List Int := []
deriving Repr, DecidableEq

/-- Modelled from the spec: `PgStorageSpec.GetSupplementalGroups` (also in
`pkg/apis`, outside the given source) returns the spec's ordered list of
numeric group IDs, which §3 says is copied into the result. -/
def PgStorageSpec.GetSupplementalGroups (s : PgStorageSpec) : List Int :=
  s.SupplementalGroups

/-- Modelled from the spec: `operator.StorageResult` (package `operator`,
outside the given source): `claimName` plus the supplemental groups copied
from the spec (§3, VolumeResult).  The zero value has both fields empty. -/
structure StorageResult where
  PersistentVolumeClaimName : String := ""
  SupplementalGroups : List Int := []
deriving Repr, DecidableEq

/-- `TemplateFields` exactly as declared in the source. -/
structure TemplateFields where
  Name : String := ""
  AccessMode : String := ""
  ClusterName : String := ""
  Size : String := ""
  StorageClass : String := ""
  MatchLabels : String := ""
deriving Repr, DecidableEq

/-- Errors the Kubernetes create call can report; `alreadyExists` is the
class that `kubeapi.IsAlreadyExists` recognises, `other` is any other API
failure. -/
inductive ApiError where
  | alreadyExists
  | other (msg : String)
deriving Repr, DecidableEq

/-- Errors produced along the `Create` path of the source:
`matchLabelsFormat` is the `errors.New` value for a malformed
`MatchLabels` string, `render` a template-execution failure, `unmarshal` a
JSON-parse failure of the rendered document, `api` an error returned by
the PersistentVolumeClaim create call. -/
inductive CreateError where
  | matchLabelsFormat
  | render (msg : String)
  | unmarshal (msg : String)
  | api (e : ApiError)
deriving Repr, DecidableEq

/-- Modelled from the spec: `kubeapi.IsAlreadyExists` (package `kubeapi`,
outside the given source) classifies exactly the API "already exists"
error; template, format and unmarshal errors are not API status errors. -/
def IsAlreadyExists : CreateError → Bool
  | .api .alreadyExists => true
  | _ => false

/-- One orchestration-API call, recorded in the traces the embedding
returns so that "no API call occurs" claims are statable. -/
inductive ApiCall where
  | createPVC (name : String)
  | getPVC (name : String)
  | deletePVC (name : String)
deriving Repr, DecidableEq

/-- The abstract orchestration-API store: the names of the
PersistentVolumeClaims that currently exist in the namespace. -/
abbrev KubeState := List String

/-- Oracles for the external collaborators of `Create`: the two manifest
templates, the match-labels template, the JSON unmarshalling of the
rendered document (yielding the object name submitted to the API), and
the API create call itself, which may update the store and report an
error. -/
structure Env where
  execStorageClassTemplate : TemplateFields → Except String String
  execPVCTemplate : TemplateFields → Except String String
  execMatchLabelsTemplate : String → String → Except String String
  jsonUnmarshalPVC : String → Except String String
  apiCreatePVC : KubeState → String → KubeState × Option ApiError

/-- The honest store semantics of the Kubernetes create call: creating a
name that already exists reports `alreadyExists` and leaves the store
unchanged; otherwise the name is added and the call succeeds. -/
def storeApiCreatePVC (st : KubeState) (name : String) :
    KubeState × Option ApiError :=
  if name ∈ st then (st, some ApiError.alreadyExists) else (name :: st, none)

/-- `getMatchLabels` from the source: render the key/value pair through the
match-labels template; on an internal rendering failure the error is only
logged and the empty string is returned to the caller. -/
def getMatchLabels (env : Env) (key value : String) : String :=
  match env.execMatchLabelsTemplate key value with
  | .ok doc => doc
  | .error _ => ""

/-- Result of `Create`: the updated store, the API calls issued, and the
error returned (`none` on success). -/
structure CreateOut where
  state : KubeState
  calls : List ApiCall
  err : Option CreateError
deriving Repr, DecidableEq

/-- Go's `strings.Split` around each instance of a single-character
separator, on the underlying character list: `"a=b"` gives `["a","b"]`,
`"onlykey"` gives `["onlykey"]`, `"=v"` gives `["","v"]`, `"a=b=c"` gives
`["a","b","c"]`.  Written with structural recursion so that concrete
instances evaluate inside the kernel (`String.splitOn` is
well-founded-recursive and does not). -/
def splitChar (sep : Char) : List Char → List (List Char)
  | [] => [[]]
  | c :: rest =>
    if c = sep then
      [] :: splitChar sep rest
    else
      match splitChar sep rest with
      | t :: ts => (c :: t) :: ts
      | [] => [[c]]

/-- `strings.Split(s, sep)` for a one-character separator. -/
def stringsSplit (s : String) (sep : Char) : List String :=
  (splitChar sep s.data).map String.mk

/-- The document-building half of `Create` from the source (everything up
to and including the template `Execute` calls, which depend only on the
spec and names, never on the API store): build the template fields; on the
`dynamic` storage type render through the storage-class template,
otherwise split a non-empty `MatchLabels` on `=`, fail with the format
error unless the split has exactly two tokens, substitute the rendered
selector fragment and render through the static template. -/
def renderPVCDocument (env : Env) (name clusterName : String)
    (storageSpec : PgStorageSpec) : Except CreateError String :=
  let pvcFields : TemplateFields :=
    { Name := name
      AccessMode := storageSpec.AccessMode
      StorageClass := storageSpec.StorageClass
      ClusterName := clusterName
      Size := storageSpec.Size
      MatchLabels := storageSpec.MatchLabels }
  if storageSpec.StorageType = "dynamic" then
    match env.execStorageClassTemplate pvcFields with
    | .ok doc => .ok doc
    | .error e => .error (.render e)
  else if storageSpec.MatchLabels ≠ "" then
    let arr := stringsSplit storageSpec.MatchLabels '='
    if arr.length ≠ 2 then
      .error .matchLabelsFormat
    else
      let pvcFields2 :=
        { pvcFields with
          MatchLabels := getMatchLabels env (arr.getD 0 "") (arr.getD 1 "") }
      match env.execPVCTemplate pvcFields2 with
      | .ok doc => .ok doc
      | .error e => .error (.render e)
  else
    match env.execPVCTemplate pvcFields with
    | .ok doc => .ok doc
    | .error e => .error (.render e)

/-- `Create` from the source: render the manifest document (see
`renderPVCDocument`); on render success unmarshal the document and submit
the object through the API create call, whose error is returned
unchanged. -/
def Create (env : Env) (st : KubeState) (name clusterName : String)
    (storageSpec : PgStorageSpec) (ns : String) : CreateOut :=
  match renderPVCDocument env name clusterName storageSpec with
  | .error e => { state := st, calls := [], err := some e }
  | .ok doc =>
    match env.jsonUnmarshalPVC doc with
    | .error e => { state := st, calls := [], err := some (.unmarshal e) }
    | .ok objName =>
      let (st2, apiErr) := env.apiCreatePVC st objName
      { state := st2, calls := [ApiCall.createPVC objName],
        err := apiErr.map CreateError.api }

/-- Result of `CreateIfNotExists`: store, calls, the `StorageResult` and
the error of the Go return pair. -/
structure ProvisionOut where
  state : KubeState
  calls : List ApiCall
  result : StorageResult
  err : Option CreateError
deriving Repr, DecidableEq

/-- `CreateIfNotExists` from the source: switch on the storage type; `""`
and `"emptydir"` are no-ops, `"existing"` fills in the spec's own name,
`"create"`/`"dynamic"` fill in the requested claim name and call `Create`,
returning its error unless `kubeapi.IsAlreadyExists` absorbs it; any other
storage type falls through the switch as a no-op. -/
def CreateIfNotExists (env : Env) (st : KubeState) (spec : PgStorageSpec)
    (pvcName clusterName ns : String) : ProvisionOut :=
  let result : StorageResult :=
    { SupplementalGroups := spec.GetSupplementalGroups }
  match spec.StorageType with
  | "" | "emptydir" =>
    { state := st, calls := [], result := result, err := none }
  | "existing" =>
    { state := st, calls := [],
      result := { result with PersistentVolumeClaimName := spec.Name },
      err := none }
  | "create" | "dynamic" =>
    let result2 := { result with PersistentVolumeClaimName := pvcName }
    let out := Create env st pvcName clusterName spec ns
    match out.err with
    | some e =>
      if !IsAlreadyExists e then
        { state := out.state, calls := out.calls, result := result2,
          err := some e }
      else
        { state := out.state, calls := out.calls, result := result2,
          err := none }
    | none =>
      { state := out.state, calls := out.calls, result := result2,
        err := none }
  | _ =>
    { state := st, calls := [], result := result, err := none }

/-- Modelled from the spec: `operator.GetTablespacePVCName` (package
`operator`, outside the given source) derives the per-tablespace claim
name from the claim-name base and the tablespace name (§4.4, "a derived
per-tablespace claim name"). -/
def GetTablespacePVCName (base tablespaceName : String) : String :=
  base ++ "-tablespace-" ++ tablespaceName

/-- Modelled from the spec: the part of `crv1.Pgcluster.Spec` this core
reads (outside the given source): the cluster name, the WAL storage spec,
and the declared tablespace mounts.  `TablespaceMounts` is a Go
`map[string]PgStorageSpec`; its iteration order is unspecified, so the
association list carries one arbitrary enumeration order of the map's
entries. -/
structure PgclusterSpec where
  Name : String := ""
  WALStorage : PgStorageSpec := {}
  TablespaceMounts : List (String × PgStorageSpec) := []
deriving Repr, DecidableEq

/-- Modelled from the spec: the `crv1.Pgcluster` wrapper around its spec. -/
structure Pgcluster where
  Spec : PgclusterSpec := {}
deriving Repr, DecidableEq

/-- Result of the tablespace loop: store, calls, the entries written into
the `tablespaceVolumes` map (in iteration order), and the loop's final
error variable. -/
structure TablespacesOut where
  state : KubeState
  calls : List ApiCall
  tablespaceVolumes : List (String × StorageResult)
  err : Option CreateError
deriving Repr, DecidableEq

/-- The `for tablespaceName, storageSpec := range TablespaceMounts` loop of
`CreateMissingPostgreSQLVolumes`: each iteration runs only while the error
variable is still nil, and an iteration that runs writes its map entry
even when its own call fails. -/
def provisionTablespaces (env : Env) (st : KubeState)
    (clusterName ns base : String) :
    List (String × PgStorageSpec) → Option CreateError → TablespacesOut
  | [], err0 =>
    { state := st, calls := [], tablespaceVolumes := [], err := err0 }
  | (tablespaceName, storageSpec) :: rest, err0 =>
    match err0 with
    | some e => provisionTablespaces env st clusterName ns base rest (some e)
    | none =>
      let out := CreateIfNotExists env st storageSpec
        (GetTablespacePVCName base tablespaceName) clusterName ns
      let restOut :=
        provisionTablespaces env out.state clusterName ns base rest out.err
      { state := restOut.state
        calls := out.calls ++ restOut.calls
        tablespaceVolumes := (tablespaceName, out.result) :: restOut.tablespaceVolumes
        err := restOut.err }

/-- The full return of `CreateMissingPostgreSQLVolumes`, with explicit
store and call trace. -/
structure ClusterProvisionOut where
  state : KubeState
  calls : List ApiCall
  dataVolume : StorageResult
  walVolume : StorageResult
  tablespaceVolumes : List (String × StorageResult)
  err : Option CreateError
deriving Repr, DecidableEq

/-- `CreateMissingPostgreSQLVolumes` from the source: provision the data
volume under the base claim name; if that succeeded, the WAL volume under
`base ++ "-wal"`; then run the tablespace loop, which only acts while no
error has occurred.  Skipped steps leave their named return at its zero
value, and the first error is returned unchanged. -/
def CreateMissingPostgreSQLVolumes (env : Env) (st : KubeState)
    (cluster : Pgcluster) (ns base : String)
    (dataStorageSpec : PgStorageSpec) : ClusterProvisionOut :=
  let d := CreateIfNotExists env st dataStorageSpec base cluster.Spec.Name ns
  let w : ProvisionOut :=
    match d.err with
    | none =>
      CreateIfNotExists env d.state cluster.Spec.WALStorage (base ++ "-wal")
        cluster.Spec.Name ns
    | some e =>
      { state := d.state, calls := [], result := {}, err := some e }
  let t := provisionTablespaces env w.state cluster.Spec.Name ns base
    cluster.Spec.TablespaceMounts w.err
  { state := t.state
    calls := d.calls ++ w.calls ++ t.calls
    dataVolume := d.result
    walVolume := w.result
    tablespaceVolumes := t.tablespaceVolumes
    err := t.err }

/-- A PersistentVolumeClaim object as the delete path reads it: its name
and its `ObjectMeta.Labels` map (as an association list). -/
structure PersistentVolumeClaim where
  Name : String := ""
  Labels : List (String × String) := []
deriving Repr, DecidableEq

/-- Go map indexing on the labels map: a missing key yields the zero value
`""`. -/
def lookupLabel : List (String × String) → String → String
  | [], _ => ""
  | (k, v) :: rest, key => if k = key then v else lookupLabel rest key

/-- Modelled from the spec: `config.LABEL_PGREMOVE` (package `config`,
outside the given source) is the fixed removal-intent label key (§6). -/
def LABEL_PGREMOVE : String := "pgremove"

/-- Modelled from the spec: the `kubeapi` lookup and delete operations
(outside the given source).  `getPVCIfExists` returns the object when it
is found, `none` when it is absent ("not found" is not itself an error,
§4.5/§6), and a lookup error otherwise; `deletePVC` may report a delete
error. -/
structure DeleteEnv where
  getPVCIfExists : String → Except String (Option PersistentVolumeClaim)
  deletePVC : String → Option String

/-- Result of `DeleteIfExists`: the API calls issued and the returned
error. -/
structure DeleteOut where
  calls : List ApiCall
  err : Option String
deriving Repr, DecidableEq

/-- `DeleteIfExists` from the source: look the claim up; when the object
is nil, return whatever the lookup returned; when it is present, issue the
delete only if its removal-intent label equals the literal `"true"`,
otherwise return the (nil) lookup error unchanged. -/
def DeleteIfExists (env : DeleteEnv) (name ns : String) : DeleteOut :=
  match env.getPVCIfExists name with
  | .error e => { calls := [ApiCall.getPVC name], err := some e }
  | .ok none => { calls := [ApiCall.getPVC name], err := none }
  | .ok (some pvc) =>
    if lookupLabel pvc.Labels LABEL_PGREMOVE = "true" then
      { calls := [ApiCall.getPVC name, ApiCall.deletePVC name],
        err := env.deletePVC name }
    else
      { calls := [ApiCall.getPVC name], err := none }

/-- A concrete well-behaved environment: every template renders (the
manifest templates render a document carrying the requested name, which
unmarshalling recovers as the object name), and the API create call has
the honest store semantics. -/
def envOK : Env :=
  { execStorageClassTemplate := fun f => .ok f.Name
    execPVCTemplate := fun f => .ok f.Name
    execMatchLabelsTemplate := fun k v => .ok (k ++ "," ++ v)
    jsonUnmarshalPVC := fun doc => .ok doc
    apiCreatePVC := storeApiCreatePVC }

/-- A concrete environment whose API create call always fails with an
error that is not `alreadyExists`. -/
def envApiFail : Env :=
  { envOK with apiCreatePVC := fun st _ => (st, some (ApiError.other "boom")) }

/-- A concrete environment whose API create call always reports
`alreadyExists`. -/
def envApiDup : Env :=
  { envOK with apiCreatePVC := fun st _ => (st, some ApiError.alreadyExists) }

/-- A concrete environment whose match-labels template fails to render. -/
def envSelectorFail : Env :=
  { envOK with execMatchLabelsTemplate := fun _ _ => .error "render broke" }

/-- A concrete cluster with one declared tablespace mount. -/
def clusterOneTablespace : Pgcluster :=
  { Spec := { Name := "c"
              WALStorage := { StorageType := "create" }
              TablespaceMounts := [("ts1", { StorageType := "create" })] } }

/-- A concrete cluster with two tablespace mounts enumerated as a, b. -/
def clusterTablespacesAB : Pgcluster :=
  { Spec := { Name := "c"
              TablespaceMounts := [("a", { StorageType := "create" }),
                                   ("b", { StorageType := "create" })] } }

/-- The same cluster map with its entries enumerated in the other order. -/
def clusterTablespacesBA : Pgcluster :=
  { Spec := { Name := "c"
              TablespaceMounts := [("b", { StorageType := "create" }),
                                   ("a", { StorageType := "create" })] } }

/-- A concrete delete environment whose lookup finds an object carrying the
removal-intent label set to `"true"`; its delete call succeeds. -/
def deleteEnvWithLabel : DeleteEnv :=
  { getPVCIfExists := fun _ =>
      .ok (some { Name := "v", Labels := [(LABEL_PGREMOVE, "true")] })
    deletePVC := fun _ => none }

/-- A concrete delete environment whose lookup finds an object without the
removal-intent label. -/
def deleteEnvNoLabel : DeleteEnv :=
  { getPVCIfExists := fun _ => .ok (some { Name := "v", Labels := [] })
    deletePVC := fun _ => none }

end pvc

open pvc

/-! Helper lemmas shared by the claim theorems below. -/

theorem IsAlreadyExists_eq_true_iff (e : CreateError) :
    IsAlreadyExists e = true ↔ e = CreateError.api ApiError.alreadyExists := by
  cases e with
  | matchLabelsFormat => simp [IsAlreadyExists]
  | render m => simp [IsAlreadyExists]
  | unmarshal m => simp [IsAlreadyExists]
  | api a => cases a <;> simp [IsAlreadyExists]

theorem CreateIfNotExists_noop (env : Env) (st : KubeState)
    (spec : PgStorageSpec) (pvcName clusterName ns : String)
    (hty : spec.StorageType = "" ∨ spec.StorageType = "emptydir") :
    CreateIfNotExists env st spec pvcName clusterName ns =
      { state := st, calls := [],
        result := { PersistentVolumeClaimName := "",
                    SupplementalGroups := spec.GetSupplementalGroups },
        err := none } := by
  rcases hty with hty | hty <;> (unfold CreateIfNotExists; rw [hty]) <;> rfl

theorem CreateIfNotExists_existing (env : Env) (st : KubeState)
    (spec : PgStorageSpec) (pvcName clusterName ns : String)
    (hty : spec.StorageType = "existing") :
    CreateIfNotExists env st spec pvcName clusterName ns =
      { state := st, calls := [],
        result := { PersistentVolumeClaimName := spec.Name,
                    SupplementalGroups := spec.GetSupplementalGroups },
        err := none } := by
  unfold CreateIfNotExists
  rw [hty]
  rfl

theorem CreateIfNotExists_default (env : Env) (st : KubeState)
    (spec : PgStorageSpec) (pvcName clusterName ns : String)
    (h1 : spec.StorageType ∉
      (["", "emptydir", "existing", "create", "dynamic"] : List String)) :
    CreateIfNotExists env st spec pvcName clusterName ns =
      { state := st, calls := [],
        result := { PersistentVolumeClaimName := "",
                    SupplementalGroups := spec.GetSupplementalGroups },
        err := none } := by
  simp only [List.mem_cons, List.not_mem_nil, or_false, not_or] at h1
  obtain ⟨h2, h3, h4, h5, h6⟩ := h1
  unfold CreateIfNotExists
  split
  · exact absurd (by assumption) h2
  · exact absurd (by assumption) h3
  · exact absurd (by assumption) h4
  · exact absurd (by assumption) h5
  · exact absurd (by assumption) h6
  · rfl

theorem CreateIfNotExists_createOrDynamic (env : Env) (st : KubeState)
    (spec : PgStorageSpec) (pvcName clusterName ns : String)
    (hty : spec.StorageType = "create" ∨ spec.StorageType = "dynamic") :
    CreateIfNotExists env st spec pvcName clusterName ns =
      { state := (Create env st pvcName clusterName spec ns).state
        calls := (Create env st pvcName clusterName spec ns).calls
        result := { PersistentVolumeClaimName := pvcName,
                    SupplementalGroups := spec.GetSupplementalGroups }
        err := match (Create env st pvcName clusterName spec ns).err with
               | some e => if !IsAlreadyExists e then some e else none
               | none => none } := by
  rcases hty with hty | hty <;>
    (unfold CreateIfNotExists
     rw [hty]
     cases h : (Create env st pvcName clusterName spec ns).err with
     | none => simp only [h]
     | some e =>
       simp only [h]
       by_cases hIs : IsAlreadyExists e <;> simp [hIs])

theorem Create_eq_render_error (env : Env) (st : KubeState)
    (name clusterName : String) (spec : PgStorageSpec) (ns : String)
    (e : CreateError)
    (hr : renderPVCDocument env name clusterName spec = .error e) :
    Create env st name clusterName spec ns =
      { state := st, calls := [], err := some e } := by
  unfold Create
  rw [hr]

theorem Create_eq_unmarshal_error (env : Env) (st : KubeState)
    (name clusterName : String) (spec : PgStorageSpec) (ns : String)
    (doc e : String)
    (hr : renderPVCDocument env name clusterName spec = .ok doc)
    (hu : env.jsonUnmarshalPVC doc = .error e) :
    Create env st name clusterName spec ns =
      { state := st, calls := [], err := some (CreateError.unmarshal e) } := by
  unfold Create
  rw [hr]
  dsimp only
  rw [hu]

theorem Create_eq_api (env : Env) (st : KubeState)
    (name clusterName : String) (spec : PgStorageSpec) (ns : String)
    (doc objName : String)
    (hr : renderPVCDocument env name clusterName spec = .ok doc)
    (hu : env.jsonUnmarshalPVC doc = .ok objName) :
    Create env st name clusterName spec ns =
      { state := (env.apiCreatePVC st objName).1
        calls := [ApiCall.createPVC objName]
        err := (env.apiCreatePVC st objName).2.map CreateError.api } := by
  unfold Create
  rw [hr]
  dsimp only
  rw [hu]

theorem provisionTablespaces_skip (env : Env) (st : KubeState)
    (clusterName ns base : String)
    (mounts : List (String × PgStorageSpec)) (e : CreateError) :
    provisionTablespaces env st clusterName ns base mounts (some e) =
      { state := st, calls := [], tablespaceVolumes := [], err := some e } := by
  induction mounts with
  | nil => rfl
  | cons head rest ih =>
    obtain ⟨tablespaceName, storageSpec⟩ := head
    rw [provisionTablespaces]
    exact ih

theorem provisionTablespaces_keys_of_ok (env : Env) (st : KubeState)
    (clusterName ns base : String)
    (mounts : List (String × PgStorageSpec))
    (hok : (provisionTablespaces env st clusterName ns base mounts none).err = none) :
    (provisionTablespaces env st clusterName ns base mounts none).tablespaceVolumes.map
        Prod.fst = mounts.map Prod.fst := by
  induction mounts generalizing st with
  | nil => rfl
  | cons head rest ih =>
    obtain ⟨tablespaceName, storageSpec⟩ := head
    rw [provisionTablespaces] at hok ⊢
    cases h : (CreateIfNotExists env st storageSpec
        (GetTablespacePVCName base tablespaceName) clusterName ns).err with
    | some e =>
      rw [h, provisionTablespaces_skip] at hok
      simp at hok
    | none =>
      rw [h] at hok
      simp only [List.map_cons, List.cons.injEq, true_and]
      exact ih _ hok

/-! Claim theorems. -/

/-- C6: for every spec with storageType in the set containing the empty
string and "emptydir", CreateIfNotExists returns an empty claim name, no
API create call and no error; for storageType "existing" it returns
claimName equal to the spec's own name, again with no API create call and
no error. -/
theorem C6_noop_and_existing_types (env : Env) (st : KubeState)
    (spec : PgStorageSpec) (pvcName clusterName ns : String) :
    ((spec.StorageType = "" ∨ spec.StorageType = "emptydir") →
      CreateIfNotExists env st spec pvcName clusterName ns =
        { state := st, calls := [],
          result := { PersistentVolumeClaimName := "",
                      SupplementalGroups := spec.GetSupplementalGroups },
          err := none }) ∧
    (spec.StorageType = "existing" →
      CreateIfNotExists env st spec pvcName clusterName ns =
        { state := st, calls := [],
          result := { PersistentVolumeClaimName := spec.Name,
                      SupplementalGroups := spec.GetSupplementalGroups },
          err := none }) :=
  ⟨CreateIfNotExists_noop env st spec pvcName clusterName ns,
   CreateIfNotExists_existing env st spec pvcName clusterName ns⟩

/-- Witness for C6 at concrete inputs. -/
theorem C6_witness :
    CreateIfNotExists envOK [] { StorageType := "emptydir" } "p" "c" "n" =
      { state := [], calls := [], result := {}, err := none } ∧
    CreateIfNotExists envOK [] { StorageType := "existing", Name := "vol0" }
        "p" "c" "n" =
      { state := [], calls := [],
        result := { PersistentVolumeClaimName := "vol0" }, err := none } :=
  ⟨(C6_noop_and_existing_types envOK [] { StorageType := "emptydir" }
      "p" "c" "n").1 (Or.inr rfl),
   (C6_noop_and_existing_types envOK [] { StorageType := "existing", Name := "vol0" }
      "p" "c" "n").2 rfl⟩

/-- C9: a spec whose storageType is outside the five recognised strings is
silently treated like the empty type: empty claim name, the spec's
supplemental groups, no error and no orchestration-API call. -/
theorem C9_unknown_storageType_noop (env : Env) (st : KubeState)
    (spec : PgStorageSpec) (pvcName clusterName ns : String)
    (h1 : spec.StorageType ∉
      (["", "emptydir", "existing", "create", "dynamic"] : List String)) :
    CreateIfNotExists env st spec pvcName clusterName ns =
      { state := st, calls := [],
        result := { PersistentVolumeClaimName := "",
                    SupplementalGroups := spec.GetSupplementalGroups },
        err := none } :=
  CreateIfNotExists_default env st spec pvcName clusterName ns h1

/-- Witness for C9 at a concrete unknown storage type. -/
theorem C9_witness :
    CreateIfNotExists envOK []
        { StorageType := "gluster", SupplementalGroups := [26] } "p" "c" "n" =
      { state := [], calls := [],
        result := { PersistentVolumeClaimName := "",
                    SupplementalGroups := [26] },
        err := none } :=
  C9_unknown_storageType_noop envOK []
    { StorageType := "gluster", SupplementalGroups := [26] } "p" "c" "n"
    (by decide)

/-- C10: when CreateIfNotExists returns an error for a "create" or
"dynamic" spec, the StorageResult alongside it is not zeroed: its claim
name is already the requested pvcName and its supplemental groups are
copied from the spec. -/
theorem C10_error_result_retains_claimName (env : Env) (st : KubeState)
    (spec : PgStorageSpec) (pvcName clusterName ns : String)
    (hty : spec.StorageType = "create" ∨ spec.StorageType = "dynamic")
    (e : CreateError)
    (herr : (CreateIfNotExists env st spec pvcName clusterName ns).err = some e) :
    (CreateIfNotExists env st spec pvcName clusterName ns).result =
      { PersistentVolumeClaimName := pvcName,
        SupplementalGroups := spec.GetSupplementalGroups } := by
  rw [CreateIfNotExists_createOrDynamic env st spec pvcName clusterName ns hty]

/-- Witness for C10: a failing API create still returns the filled-in
result, so an error and a non-empty claim name co-occur. -/
theorem C10_witness :
    (CreateIfNotExists envApiFail []
        { StorageType := "dynamic", SupplementalGroups := [1001] }
        "pgdata" "c" "n").err =
      some (CreateError.api (ApiError.other "boom")) ∧
    (CreateIfNotExists envApiFail []
        { StorageType := "dynamic", SupplementalGroups := [1001] }
        "pgdata" "c" "n").result =
      { PersistentVolumeClaimName := "pgdata", SupplementalGroups := [1001] } :=
  ⟨by decide,
   C10_error_result_retains_claimName envApiFail []
     { StorageType := "dynamic", SupplementalGroups := [1001] } "pgdata" "c" "n"
     (Or.inr rfl) (CreateError.api (ApiError.other "boom")) (by decide)⟩

/-- C8: if the match-labels template rendering fails internally, the
selector builder returns the empty fragment to its caller with no error
value; otherwise it returns the rendered fragment. -/
theorem C8_selector_render_failure (env : Env) (key value : String) :
    (∀ e, env.execMatchLabelsTemplate key value = .error e →
      getMatchLabels env key value = "") ∧
    (∀ frag, env.execMatchLabelsTemplate key value = .ok frag →
      getMatchLabels env key value = frag) := by
  constructor <;> (intro x h; unfold getMatchLabels; rw [h])

/-- Witness for C8 on one failing and one succeeding concrete template. -/
theorem C8_witness :
    getMatchLabels envSelectorFail "env" "prod" = "" ∧
    getMatchLabels envOK "env" "prod" = "env,prod" :=
  ⟨(C8_selector_render_failure envSelectorFail "env" "prod").1
     "render broke" rfl,
   (C8_selector_render_failure envOK "env" "prod").2 "env,prod" rfl⟩

/-- C4 counterexample: with storageType "existing" and an empty spec name,
CreateIfNotExists returns without error a result whose claim name is
empty although "existing" is in the claimed set, refuting the claimed
equivalence at this input. -/
theorem C4_counterexample :
    (CreateIfNotExists envOK [] { StorageType := "existing", Name := "" }
        "p" "c" "n").err = none ∧
    (CreateIfNotExists envOK [] { StorageType := "existing", Name := "" }
        "p" "c" "n").result.PersistentVolumeClaimName = "" ∧
    "existing" ∈ (["existing", "create", "dynamic"] : List String) := by
  decide

/-- C4 (amended): for every StorageResult returned without error by
CreateIfNotExists, the claim name is non-empty iff the storage type is
"existing" with a non-empty spec name, or "create"/"dynamic" with a
non-empty requested pvcName. -/
theorem C4_claimName_nonempty_iff (env : Env) (st : KubeState)
    (spec : PgStorageSpec) (pvcName clusterName ns : String)
    (hok : (CreateIfNotExists env st spec pvcName clusterName ns).err = none) :
    (CreateIfNotExists env st spec pvcName clusterName ns).result.PersistentVolumeClaimName ≠ "" ↔
      ((spec.StorageType = "existing" ∧ spec.Name ≠ "") ∨
       ((spec.StorageType = "create" ∨ spec.StorageType = "dynamic") ∧
         pvcName ≠ "")) := by
  by_cases h0 : spec.StorageType = ""
  · rw [CreateIfNotExists_noop env st spec pvcName clusterName ns (Or.inl h0)]
    simp [h0]
  by_cases h1 : spec.StorageType = "emptydir"
  · rw [CreateIfNotExists_noop env st spec pvcName clusterName ns (Or.inr h1)]
    simp [h1]
  by_cases h2 : spec.StorageType = "existing"
  · rw [CreateIfNotExists_existing env st spec pvcName clusterName ns h2]
    simp [h2]
  by_cases h3 : spec.StorageType = "create"
  · rw [CreateIfNotExists_createOrDynamic env st spec pvcName clusterName ns
      (Or.inl h3)]
    simp [h3]
  by_cases h4 : spec.StorageType = "dynamic"
  · rw [CreateIfNotExists_createOrDynamic env st spec pvcName clusterName ns
      (Or.inr h4)]
    simp [h4]
  · rw [CreateIfNotExists_default env st spec pvcName clusterName ns
      (by simp [h0, h1, h2, h3, h4])]
    simp [h2, h3, h4]

/-- Witness for C4 (amended) at a concrete "existing" spec. -/
theorem C4_witness :
    (CreateIfNotExists envOK [] { StorageType := "existing", Name := "vol1" }
        "p" "c" "n").result.PersistentVolumeClaimName ≠ "" ↔
      ((("existing" : String) = "existing" ∧ ("vol1" : String) ≠ "") ∨
       ((("existing" : String) = "create" ∨ ("existing" : String) = "dynamic") ∧
         ("p" : String) ≠ "")) :=
  C4_claimName_nonempty_iff envOK [] { StorageType := "existing", Name := "vol1" }
    "p" "c" "n" rfl

/-- C3 counterexample: on the "dynamic" path a non-empty malformed
matchLabels string ("onlykey", no "=") is not validated at all, and on the
"create" path "=v" splits into two tokens one of which is empty; in both
cases Create succeeds and issues an API call, refuting the claim. -/
theorem C3_counterexample :
    (Create envOK [] "p" "c"
        { StorageType := "dynamic", MatchLabels := "onlykey" } "n").err = none ∧
    (Create envOK [] "p" "c"
        { StorageType := "dynamic", MatchLabels := "onlykey" } "n").calls =
      [ApiCall.createPVC "p"] ∧
    (Create envOK [] "p" "c"
        { StorageType := "create", MatchLabels := "=v" } "n").err = none ∧
    (Create envOK [] "p" "c"
        { StorageType := "create", MatchLabels := "=v" } "n").calls =
      [ApiCall.createPVC "p"] := by
  decide

/-- C3 (amended): for a "create" spec with non-empty matchLabels that does
not split on "=" into exactly two tokens (tokens may be empty), the
provisioning call fails with the malformed-selector error and issues zero
orchestration-API calls; the "dynamic" path performs no such validation. -/
theorem C3_malformed_matchLabels (env : Env) (st : KubeState)
    (spec : PgStorageSpec) (pvcName clusterName ns : String)
    (hty : spec.StorageType = "create")
    (hne : spec.MatchLabels ≠ "")
    (hsplit : (stringsSplit spec.MatchLabels '=').length ≠ 2) :
    CreateIfNotExists env st spec pvcName clusterName ns =
      { state := st, calls := [],
        result := { PersistentVolumeClaimName := pvcName,
                    SupplementalGroups := spec.GetSupplementalGroups },
        err := some CreateError.matchLabelsFormat } := by
  have hr : renderPVCDocument env pvcName clusterName spec =
      .error .matchLabelsFormat := by
    unfold renderPVCDocument
    rw [hty]
    simp [hne, hsplit]
  rw [CreateIfNotExists_createOrDynamic env st spec pvcName clusterName ns
    (Or.inl hty)]
  rw [Create_eq_render_error env st pvcName clusterName spec ns
    CreateError.matchLabelsFormat hr]
  rfl

/-- Witness for C3 (amended) on "onlykey". -/
theorem C3_witness :
    CreateIfNotExists envOK [] { StorageType := "create", MatchLabels := "onlykey" }
        "p" "c" "n" =
      { state := [], calls := [],
        result := { PersistentVolumeClaimName := "p" },
        err := some CreateError.matchLabelsFormat } :=
  C3_malformed_matchLabels envOK []
    { StorageType := "create", MatchLabels := "onlykey" } "p" "c" "n"
    rfl (by decide) (by decide)

/-- C7: DeleteIfExists issues a delete only when the looked-up object
exists and carries the removal-intent label with value exactly "true"; an
object without that value yields no delete and no error, an absent object
yields no delete and no error, and any other lookup error is returned
without a delete. -/
theorem C7_delete_gating (env : DeleteEnv) (name ns : String) :
    (∀ pvc, env.getPVCIfExists name = .ok (some pvc) →
      lookupLabel pvc.Labels LABEL_PGREMOVE ≠ "true" →
      DeleteIfExists env name ns =
        { calls := [ApiCall.getPVC name], err := none }) ∧
    (∀ pvc, env.getPVCIfExists name = .ok (some pvc) →
      lookupLabel pvc.Labels LABEL_PGREMOVE = "true" →
      DeleteIfExists env name ns =
        { calls := [ApiCall.getPVC name, ApiCall.deletePVC name],
          err := env.deletePVC name }) ∧
    (env.getPVCIfExists name = .ok none →
      DeleteIfExists env name ns =
        { calls := [ApiCall.getPVC name], err := none }) ∧
    (∀ e, env.getPVCIfExists name = .error e →
      DeleteIfExists env name ns =
        { calls := [ApiCall.getPVC name], err := some e }) := by
  refine ⟨?_, ?_, ?_, ?_⟩
  · intro pvc h hl
    unfold DeleteIfExists
    rw [h]
    dsimp only
    rw [if_neg hl]
  · intro pvc h hl
    unfold DeleteIfExists
    rw [h]
    dsimp only
    rw [if_pos hl]
  · intro h
    unfold DeleteIfExists
    rw [h]
  · intro e h
    unfold DeleteIfExists
    rw [h]

/-- Witness for C7 on a labelled and an unlabelled concrete object. -/
theorem C7_witness :
    DeleteIfExists deleteEnvNoLabel "v" "n" =
      { calls := [ApiCall.getPVC "v"], err := none } ∧
    DeleteIfExists deleteEnvWithLabel "v" "n" =
      { calls := [ApiCall.getPVC "v", ApiCall.deletePVC "v"], err := none } :=
  ⟨(C7_delete_gating deleteEnvNoLabel "v" "n").1
     { Name := "v", Labels := [] } rfl (by decide),
   (C7_delete_gating deleteEnvWithLabel "v" "n").2.1
     { Name := "v", Labels := [(LABEL_PGREMOVE, "true")] } rfl rfl⟩

/-- C1: for a "create" or "dynamic" spec, an "already exists" report from
the orchestration-API create call is absorbed: CreateIfNotExists succeeds
with claimName equal to the requested pvcName; any other error from the
Create path is returned as-is; and against a store-backed API, a second
call with identical arguments from the state the first successful call
left behind succeeds as well. -/
theorem C1_alreadyExists_absorbed_and_idempotent (env : Env) (st : KubeState)
    (spec : PgStorageSpec) (pvcName clusterName ns : String)
    (hty : spec.StorageType = "create" ∨ spec.StorageType = "dynamic") :
    ((Create env st pvcName clusterName spec ns).err =
        some (CreateError.api ApiError.alreadyExists) →
      (CreateIfNotExists env st spec pvcName clusterName ns).err = none ∧
      (CreateIfNotExists env st spec pvcName clusterName ns).result.PersistentVolumeClaimName =
        pvcName) ∧
    (∀ e, (Create env st pvcName clusterName spec ns).err = some e →
      IsAlreadyExists e = false →
      (CreateIfNotExists env st spec pvcName clusterName ns).err = some e) ∧
    (env.apiCreatePVC = storeApiCreatePVC →
      (CreateIfNotExists env st spec pvcName clusterName ns).err = none →
      (CreateIfNotExists env
          (CreateIfNotExists env st spec pvcName clusterName ns).state
          spec pvcName clusterName ns).err = none) := by
  refine ⟨?_, ?_, ?_⟩
  · intro h
    rw [CreateIfNotExists_createOrDynamic env st spec pvcName clusterName ns hty]
    simp [h, IsAlreadyExists]
  · intro e h hIs
    rw [CreateIfNotExists_createOrDynamic env st spec pvcName clusterName ns hty]
    simp [h, hIs]
  · intro hstore h1
    cases hr : renderPVCDocument env pvcName clusterName spec with
    | error e =>
      have hfirst : CreateIfNotExists env st spec pvcName clusterName ns =
          { state := st, calls := [],
            result := { PersistentVolumeClaimName := pvcName,
                        SupplementalGroups := spec.GetSupplementalGroups },
            err := if !IsAlreadyExists e then some e else none } := by
        rw [CreateIfNotExists_createOrDynamic env st spec pvcName clusterName ns hty,
            Create_eq_render_error env st pvcName clusterName spec ns e hr]
      rw [hfirst] at h1 ⊢
      dsimp only at h1 ⊢
      rw [hfirst]
      exact h1
    | ok doc =>
      cases hu : env.jsonUnmarshalPVC doc with
      | error e =>
        have hfirst : CreateIfNotExists env st spec pvcName clusterName ns =
            { state := st, calls := [],
              result := { PersistentVolumeClaimName := pvcName,
                          SupplementalGroups := spec.GetSupplementalGroups },
              err := some (CreateError.unmarshal e) } := by
          rw [CreateIfNotExists_createOrDynamic env st spec pvcName clusterName ns hty,
              Create_eq_unmarshal_error env st pvcName clusterName spec ns doc e hr hu]
          rfl
        rw [hfirst] at h1
        simp at h1
      | ok objName =>
        by_cases hmem : objName ∈ st
        · have hfirst : CreateIfNotExists env st spec pvcName clusterName ns =
              { state := st, calls := [ApiCall.createPVC objName],
                result := { PersistentVolumeClaimName := pvcName,
                            SupplementalGroups := spec.GetSupplementalGroups },
                err := none } := by
            rw [CreateIfNotExists_createOrDynamic env st spec pvcName clusterName ns hty,
                Create_eq_api env st pvcName clusterName spec ns doc objName hr hu,
                hstore]
            simp [storeApiCreatePVC, hmem, IsAlreadyExists]
          rw [hfirst]
          dsimp only
          rw [hfirst]
        · have hfirst : CreateIfNotExists env st spec pvcName clusterName ns =
              { state := objName :: st, calls := [ApiCall.createPVC objName],
                result := { PersistentVolumeClaimName := pvcName,
                            SupplementalGroups := spec.GetSupplementalGroups },
                err := none } := by
            rw [CreateIfNotExists_createOrDynamic env st spec pvcName clusterName ns hty,
                Create_eq_api env st pvcName clusterName spec ns doc objName hr hu,
                hstore]
            simp [storeApiCreatePVC, hmem]
          have hsecond : CreateIfNotExists env (objName :: st) spec pvcName clusterName ns =
              { state := objName :: st, calls := [ApiCall.createPVC objName],
                result := { PersistentVolumeClaimName := pvcName,
                            SupplementalGroups := spec.GetSupplementalGroups },
                err := none } := by
            rw [CreateIfNotExists_createOrDynamic env (objName :: st) spec pvcName clusterName ns hty,
                Create_eq_api env (objName :: st) pvcName clusterName spec ns doc objName hr hu,
                hstore]
            simp [storeApiCreatePVC, IsAlreadyExists]
          rw [hfirst]
          dsimp only
          rw [hsecond]

/-- Witness for C1: a store already containing the requested name makes
the create call report "already exists", which is absorbed; and re-running
from the state a successful first call left behind succeeds again. -/
theorem C1_witness :
    ((CreateIfNotExists envOK ["p1"] { StorageType := "create" } "p1" "c" "n").err = none ∧
     (CreateIfNotExists envOK ["p1"] { StorageType := "create" } "p1" "c" "n").result.PersistentVolumeClaimName = "p1") ∧
    (CreateIfNotExists envOK
        (CreateIfNotExists envOK [] { StorageType := "create" } "p1" "c" "n").state
        { StorageType := "create" } "p1" "c" "n").err = none :=
  ⟨(C1_alreadyExists_absorbed_and_idempotent envOK ["p1"]
      { StorageType := "create" } "p1" "c" "n" (Or.inl rfl)).1 (by decide),
   (C1_alreadyExists_absorbed_and_idempotent envOK []
      { StorageType := "create" } "p1" "c" "n" (Or.inl rfl)).2.2 rfl (by decide)⟩

/-- C2 counterexample: when the data step fails, the returned tablespace
map has no entries at all, so its keys are not identical to the cluster's
declared tablespace mounts (which declare "ts1"), refuting that part of
the claim; the other parts (skipping, zero WAL result, first error
unmodified) do hold at this input. -/
theorem C2_counterexample :
    (CreateMissingPostgreSQLVolumes envApiFail [] clusterOneTablespace
        "n" "p" { StorageType := "create" }).err =
      some (CreateError.api (ApiError.other "boom")) ∧
    (CreateMissingPostgreSQLVolumes envApiFail [] clusterOneTablespace
        "n" "p" { StorageType := "create" }).tablespaceVolumes.map Prod.fst = [] ∧
    clusterOneTablespace.Spec.TablespaceMounts.map Prod.fst = ["ts1"] := by
  decide

/-- C2 (amended): once any step fails, every subsequent step is skipped
with no API call: a data failure returns the data step's state, calls and
result together with a zero WAL result, an empty tablespace map and the
data error unmodified; a WAL failure after a successful data step leaves
the tablespace map empty and returns the WAL error; when no error occurs
the tablespace map's keys are exactly the declared mounts in iteration
order; and the tablespace loop entered with an error performs no call,
writes no entry and returns that error unmodified.  Entries for skipped
tablespaces are absent from the map (reading them yields the zero value)
rather than present at their zero value. -/
theorem C2_short_circuit (env : Env) (st : KubeState) (cluster : Pgcluster)
    (ns base : String) (dataStorageSpec : PgStorageSpec) :
    (∀ e, (CreateIfNotExists env st dataStorageSpec base cluster.Spec.Name ns).err = some e →
      CreateMissingPostgreSQLVolumes env st cluster ns base dataStorageSpec =
        { state := (CreateIfNotExists env st dataStorageSpec base cluster.Spec.Name ns).state
          calls := (CreateIfNotExists env st dataStorageSpec base cluster.Spec.Name ns).calls
          dataVolume := (CreateIfNotExists env st dataStorageSpec base cluster.Spec.Name ns).result
          walVolume := {}
          tablespaceVolumes := []
          err := some e }) ∧
    (∀ e, (CreateIfNotExists env st dataStorageSpec base cluster.Spec.Name ns).err = none →
      (CreateIfNotExists env
          (CreateIfNotExists env st dataStorageSpec base cluster.Spec.Name ns).state
          cluster.Spec.WALStorage (base ++ "-wal") cluster.Spec.Name ns).err = some e →
      (CreateMissingPostgreSQLVolumes env st cluster ns base dataStorageSpec).tablespaceVolumes = [] ∧
      (CreateMissingPostgreSQLVolumes env st cluster ns base dataStorageSpec).err = some e) ∧
    ((CreateMissingPostgreSQLVolumes env st cluster ns base dataStorageSpec).err = none →
      (CreateMissingPostgreSQLVolumes env st cluster ns base dataStorageSpec).tablespaceVolumes.map Prod.fst =
        cluster.Spec.TablespaceMounts.map Prod.fst) ∧
    (∀ st2 e, provisionTablespaces env st2 cluster.Spec.Name ns base
        cluster.Spec.TablespaceMounts (some e) =
      { state := st2, calls := [], tablespaceVolumes := [], err := some e }) := by
  refine ⟨?_, ?_, ?_, ?_⟩
  · intro e h
    simp only [CreateMissingPostgreSQLVolumes, h, provisionTablespaces_skip,
      List.append_nil]
  · intro e h1 h2
    simp only [CreateMissingPostgreSQLVolumes, h1, h2, provisionTablespaces_skip]
    exact ⟨trivial, trivial⟩
  · intro hok
    cases h1 : (CreateIfNotExists env st dataStorageSpec base cluster.Spec.Name ns).err with
    | some e =>
      simp only [CreateMissingPostgreSQLVolumes, h1, provisionTablespaces_skip] at hok
      simp at hok
    | none =>
      cases h2 : (CreateIfNotExists env
          (CreateIfNotExists env st dataStorageSpec base cluster.Spec.Name ns).state
          cluster.Spec.WALStorage (base ++ "-wal") cluster.Spec.Name ns).err with
      | some e =>
        simp only [CreateMissingPostgreSQLVolumes, h1, h2, provisionTablespaces_skip] at hok
        simp at hok
      | none =>
        simp only [CreateMissingPostgreSQLVolumes, h1, h2] at hok ⊢
        exact provisionTablespaces_keys_of_ok env _ cluster.Spec.Name ns base
          cluster.Spec.TablespaceMounts hok
  · intro st2 e
    exact provisionTablespaces_skip env st2 cluster.Spec.Name ns base
      cluster.Spec.TablespaceMounts e

/-- Witness for C2 (amended): the data-failure conjunct at a concrete
cluster with one declared tablespace. -/
theorem C2_witness :
    CreateMissingPostgreSQLVolumes envApiFail [] clusterOneTablespace
        "n" "p" { StorageType := "create" } =
      { state := [], calls := [ApiCall.createPVC "p"],
        dataVolume := { PersistentVolumeClaimName := "p" },
        walVolume := {}, tablespaceVolumes := [],
        err := some (CreateError.api (ApiError.other "boom")) } :=
  (C2_short_circuit envApiFail [] clusterOneTablespace "n" "p"
      { StorageType := "create" }).1
    (CreateError.api (ApiError.other "boom")) (by decide)

/-- C5 counterexample: the tablespace iteration order is the (unspecified)
enumeration order of the Go map, not a fixed reproducible order: two
clusters whose declared tablespace mounts are equal as maps (the entry
lists are permutations of each other) produce different API call
sequences, refuting the claimed fixed order. -/
theorem C5_counterexample :
    clusterTablespacesAB.Spec.TablespaceMounts.Perm
      clusterTablespacesBA.Spec.TablespaceMounts ∧
    (CreateMissingPostgreSQLVolumes envOK [] clusterTablespacesAB "n" "p" {}).calls ≠
      (CreateMissingPostgreSQLVolumes envOK [] clusterTablespacesBA "n" "p" {}).calls := by
  constructor
  · exact List.Perm.swap _ _ _
  · decide

/-- C5 (amended): within one CreateMissingPostgreSQLVolumes call the trace
is the data step's calls, then the WAL step's calls, then the tablespace
loop's calls, and the tablespace loop itself emits each mount's calls in
the order of the given enumeration of the mounts; the enumeration order of
the map is not itself fixed. -/
theorem C5_sequential_order (env : Env) (st : KubeState) (cluster : Pgcluster)
    (ns base : String) (dataStorageSpec : PgStorageSpec)
    (d w : ProvisionOut) (t : TablespacesOut)
    (hd : d = CreateIfNotExists env st dataStorageSpec base cluster.Spec.Name ns)
    (hw : w = match d.err with
      | none => CreateIfNotExists env d.state cluster.Spec.WALStorage
          (base ++ "-wal") cluster.Spec.Name ns
      | some e => { state := d.state, calls := [], result := {}, err := some e })
    (ht : t = provisionTablespaces env w.state cluster.Spec.Name ns base
      cluster.Spec.TablespaceMounts w.err) :
    (CreateMissingPostgreSQLVolumes env st cluster ns base dataStorageSpec).calls =
      d.calls ++ w.calls ++ t.calls ∧
    (∀ st2 tablespaceName storageSpec rest,
      (provisionTablespaces env st2 cluster.Spec.Name ns base
          ((tablespaceName, storageSpec) :: rest) none).calls =
        (CreateIfNotExists env st2 storageSpec
            (GetTablespacePVCName base tablespaceName) cluster.Spec.Name ns).calls ++
        (provisionTablespaces env
            (CreateIfNotExists env st2 storageSpec
              (GetTablespacePVCName base tablespaceName) cluster.Spec.Name ns).state
            cluster.Spec.Name ns base rest
            (CreateIfNotExists env st2 storageSpec
              (GetTablespacePVCName base tablespaceName) cluster.Spec.Name ns).err).calls) := by
  subst hd hw ht
  exact ⟨rfl, fun st2 tablespaceName storageSpec rest => rfl⟩

/-- Witness for C5 (amended) at a concrete two-tablespace cluster. -/
theorem C5_witness :
    (CreateMissingPostgreSQLVolumes envOK [] clusterTablespacesAB "n" "p" {}).calls =
      [ApiCall.createPVC "p-tablespace-a", ApiCall.createPVC "p-tablespace-b"] := by
  have h := (C5_sequential_order envOK [] clusterTablespacesAB "n" "p" {}
    _ _ _ rfl rfl rfl).1
  rw [h]
  decide
